import Mathlib

/-!
Shallow embedding of `nfqueue.go` (package `nfqueue`): a Go binding to the
netfilter_queue kernel facility.  The native (cgo) layer is modelled by an
oracle of Booleans deciding the success of each native call; every operation
returns the list of native calls it issued together with its outcome, so that
call order, abort-on-failure and skipped steps are all visible in the model.
-/

namespace nfqueue

/-- Queue flags, from the `QueueFlag` constants of `nfqueue.go` (lines 132-145):
`FailOpen = 1 <<< 0`, `Conntrack = 1 <<< 1`, `GSO = 1 <<< 2`, `UIDGid = 1 <<< 3`,
`Secctx = 1 <<< 4`. -/
inductive QueueFlag
  | FailOpen
  | Conntrack
  | GSO
  | UIDGid
  | Secctx
deriving DecidableEq, Repr

/-- The numeric bit of each `QueueFlag` constant. -/
def QueueFlag.toMask : QueueFlag → Nat
  | .FailOpen => 1 <<< 0
  | .Conntrack => 1 <<< 1
  | .GSO => 1 <<< 2
  | .UIDGid => 1 <<< 3
  | .Secctx => 1 <<< 4

/-- `QueueConfig` struct (lines 147-152).  `uint32` fields are modelled as `Nat`
(the code only compares them with zero and passes them through). -/
structure QueueConfig where
  MaxPackets : Nat
  QueueFlags : List QueueFlag
  BufferSize : Nat
deriving DecidableEq, Repr

/-- The Go zero value `QueueConfig{}` substituted by `NewQueue` for a nil config. -/
def QueueConfig.zero : QueueConfig :=
  { MaxPackets := 0, QueueFlags := [], BufferSize := 0 }

/-- The bitmask composed by the flag loop in `Start` (lines 207-211):
`var flags C.uint32_t` (zero-initialized) followed by `flags &= C.uint32_t(flag)`
for each requested flag.  Note the fold is a bitwise AND, exactly as in the
source. -/
def composeFlags (flags : List QueueFlag) : Nat :=
  flags.foldl (fun acc f => acc &&& f.toMask) 0

/-- `Queue` struct (lines 155-162).  The handler interface `PacketHandler` is an
opaque capability, modelled by a type parameter `H`; the native handles
`h`, `qh`, `fd` live behind the native boundary and are represented by the
oracle, not stored here. -/
structure Queue (H : Type) where
  ID : Nat
  handler : H
  cfg : QueueConfig
deriving DecidableEq, Repr

/-- One native call issued by the queue lifecycle, in the vocabulary of the cgo
functions invoked by `Start` and `Stop`. -/
inductive NativeCall
  | nfqOpen
  | createQueue (id : Nat)
  | setMode
  | setQueueMaxlen (n : Nat)
  | setQueueFlags (mask : Nat)
  | nfqFd
  | rcvbufsiz (n : Nat)
  | nfqueueLoop
  | closeFd
  | destroyQueue
  | nfqClose
deriving DecidableEq, Repr

/-- The distinct errors returned by `Start` (lines 181-230), one per failing
native step, in the order the steps occur. -/
inductive StartError
  | openError
  | bindError
  | modeError
  | queueLengthError
  | flagError
  | descriptorError
  | runLoopError
deriving DecidableEq, Repr

/-- The distinct errors returned by `Stop` (lines 233-243). -/
inductive StopError
  | closeDescriptorError
  | destroyBindingError
  | closeContextError
deriving DecidableEq, Repr

/-- Oracle for the native layer: the success of each native call the code
checks.  `nfnl_rcvbufsiz` has no field because `Start` ignores its result. -/
structure NativeOracle where
  openOk : Bool
  createOk : Bool
  modeOk : Bool
  maxlenOk : Bool
  flagsOk : Bool
  fdOk : Bool
  loopOk : Bool
  closeOk : Bool
  destroyOk : Bool
  ncloseOk : Bool
  verdictOk : Bool
deriving DecidableEq, Repr

/-- Sequencing of two traced steps with Go early-return semantics: if the first
step failed, its error is returned and the second step never runs. -/
def seqStep {ε : Type} (a : List NativeCall × Option ε)
    (k : List NativeCall × Option ε) : List NativeCall × Option ε :=
  match a.2 with
  | some e => (a.1, some e)
  | none => (a.1 ++ k.1, k.2)

variable {H : Type}

/-- `Queue.Start` (lines 181-230): open the context, create (bind) the queue,
set copy mode, optionally set the max queue length (`MaxPackets > 0`),
optionally set the composed flags (`len(QueueFlags) > 0`), get the descriptor,
optionally set the receive buffer size (`BufferSize > 0`, result ignored), and
run the blocking loop.  Each `if ... return errors.New(...)` of the source is
one `seqStep`. -/
def Queue.Start (q : Queue H) (o : NativeOracle) :
    List NativeCall × Option StartError :=
  seqStep ([.nfqOpen], if o.openOk then none else some .openError) <|
  seqStep ([.createQueue q.ID], if o.createOk then none else some .bindError) <|
  seqStep ([.setMode], if o.modeOk then none else some .modeError) <|
  seqStep (if 0 < q.cfg.MaxPackets then
      ([.setQueueMaxlen q.cfg.MaxPackets],
        if o.maxlenOk then none else some .queueLengthError)
    else ([], none)) <|
  seqStep (if 0 < q.cfg.QueueFlags.length then
      ([.setQueueFlags (composeFlags q.cfg.QueueFlags)],
        if o.flagsOk then none else some .flagError)
    else ([], none)) <|
  seqStep ([.nfqFd], if o.fdOk then none else some .descriptorError) <|
  seqStep (if 0 < q.cfg.BufferSize then ([.rcvbufsiz q.cfg.BufferSize], none)
    else ([], none))
  ([.nfqueueLoop], if o.loopOk then none else some .runLoopError)

/-- `Queue.Stop` (lines 233-243): close the descriptor, destroy the queue
binding, close the context; each `if ... return errors.New(...)` is one
`seqStep`, so a failing step returns without running the later ones. -/
def Queue.Stop (_q : Queue H) (o : NativeOracle) :
    List NativeCall × Option StopError :=
  seqStep ([.closeFd], if o.closeOk then none else some .closeDescriptorError) <|
  seqStep ([.destroyQueue], if o.destroyOk then none else some .destroyBindingError)
  ([.nfqClose], if o.ncloseOk then none else some .closeContextError)

/-- `PacketMeta` struct (lines 42-53); `uint32` fields as `Nat`, `HWAddr` as a
byte list. -/
structure PacketMeta where
  HasUID : Bool
  HasGID : Bool
  UID : Nat
  GID : Nat
  InDev : Nat
  OutDev : Nat
  PhysInDev : Nat
  PhysOutDev : Nat
  NFMark : Nat
  HWAddr : List Nat
deriving DecidableEq, Repr

/-- A network interface as returned by Go's `net.InterfaceByIndex`; only the
`Name` field is used by the code. -/
structure Iface where
  Name : String
deriving DecidableEq, Repr

/-- Oracle for `net.InterfaceByIndex`: `none` models the `(nil, err)` return for
an index with no interface. -/
def IfaceLookup : Type := Nat → Option Iface

/-- `PacketMeta.InDevName` (lines 56-62): look up `InDev`, return `""` on error,
else the interface name. -/
def PacketMeta.InDevName (m : PacketMeta) (lookup : IfaceLookup) : String :=
  match lookup m.InDev with
  | none => ""
  | some iface => iface.Name

/-- `PacketMeta.OutDevName` (lines 65-71). -/
def PacketMeta.OutDevName (m : PacketMeta) (lookup : IfaceLookup) : String :=
  match lookup m.OutDev with
  | none => ""
  | some iface => iface.Name

/-- `PacketMeta.PhysInDevName` (lines 74-80). -/
def PacketMeta.PhysInDevName (m : PacketMeta) (lookup : IfaceLookup) : String :=
  match lookup m.PhysInDev with
  | none => ""
  | some iface => iface.Name

/-- `PacketMeta.PhysOutDevName` (lines 83-89). -/
def PacketMeta.PhysOutDevName (m : PacketMeta) (lookup : IfaceLookup) : String :=
  match lookup m.PhysOutDev with
  | none => ""
  | some iface => iface.Name

/-- Uppercase hex digit for `n < 16`, as produced by Go's `%X` verb. -/
def hexDigitUpper (n : Nat) : Char :=
  if n < 10 then Char.ofNat (48 + n) else Char.ofNat (55 + n)

/-- Go's `%02X` rendering of one byte: exactly two uppercase hex digits. -/
def hexPair (b : Nat) : String :=
  String.mk [hexDigitUpper (b / 16), hexDigitUpper (b % 16)]

/-- Result of `MACAddr`: Go's bounds check panics when `HWAddr` has fewer than
six bytes. -/
inductive MACResult
  | panicIndexOutOfRange
  | ok (s : String)
deriving DecidableEq, Repr

/-- The `fmt.Sprintf` call of `MACAddr`: `HWAddr[0]..HWAddr[5]` rendered with
the `%02X:%02X:%02X:%02X:%02X:%02X` format.  The six indexing operations
require at least six bytes; a shorter slice panics at the Go bounds check. -/
def macFormat : List Nat → MACResult
  | a :: b :: c :: d :: e :: f :: _ =>
    .ok (hexPair a ++ ":" ++ hexPair b ++ ":" ++ hexPair c ++ ":" ++
      hexPair d ++ ":" ++ hexPair e ++ ":" ++ hexPair f)
  | _ => .panicIndexOutOfRange

/-- `PacketMeta.MACAddr` (lines 92-97). -/
def PacketMeta.MACAddr (m : PacketMeta) : MACResult :=
  macFormat m.HWAddr

/-- `NF_DROP` from `linux/netfilter.h`, passed by `Drop`. -/
def NF_DROP : Nat := 0

/-- `NF_ACCEPT` from `linux/netfilter.h`, passed by `Accept` and `Modify`. -/
def NF_ACCEPT : Nat := 1

/-- `Packet` struct (lines 100-105): buffer, metadata, kernel-issued id and the
back-reference to the owning queue. -/
structure Packet (H : Type) where
  Buffer : List Nat
  Meta : PacketMeta
  id : Nat
  q : Queue H

/-- One `nfq_set_verdict` invocation: verdict value, packet id, buffer length
and the replacement buffer (`none` models the nil pointer). -/
structure VerdictCall where
  verdict : Nat
  packetId : Nat
  len : Nat
  buffer : Option (List Nat)
deriving DecidableEq, Repr

/-- `Packet.setVerdict` (lines 122-127): one `nfq_set_verdict` call on the
queue's handle tagged with the packet id; on a negative native result it
returns the error `"Error setting verdict %d for packet %d"` formatted with the
verdict value and the packet id, with no retry. -/
def Packet.setVerdict (p : Packet H) (o : NativeOracle) (verdict len : Nat)
    (buffer : Option (List Nat)) : List VerdictCall × Option String :=
  ([⟨verdict, p.id, len, buffer⟩],
    if o.verdictOk then none
    else some ("Error setting verdict " ++ toString verdict ++ " for packet " ++
      toString p.id))

/-- `Packet.Accept` (lines 108-110): `setVerdict(NF_ACCEPT, 0, nil)`. -/
def Packet.Accept (p : Packet H) (o : NativeOracle) :
    List VerdictCall × Option String :=
  p.setVerdict o NF_ACCEPT 0 none

/-- `Packet.Drop` (lines 113-115): `setVerdict(NF_DROP, 0, nil)`. -/
def Packet.Drop (p : Packet H) (o : NativeOracle) :
    List VerdictCall × Option String :=
  p.setVerdict o NF_DROP 0 none

/-- Result of `Modify`: evaluating `&buffer[0]` on an empty slice panics before
any native call is made. -/
inductive ModifyResult
  | panicIndexOutOfRange
  | result (calls : List VerdictCall) (err : Option String)
deriving DecidableEq, Repr

/-- `Packet.Modify` (lines 118-120):
`setVerdict(NF_ACCEPT, len(buffer), &buffer[0])`.  The argument `&buffer[0]` is
bounds-checked by the Go runtime, so a zero-length buffer panics with an
index-out-of-range error before `setVerdict` runs; there is no explicit length
validation in the source. -/
def Packet.Modify (p : Packet H) (o : NativeOracle) (buffer : List Nat) :
    ModifyResult :=
  if buffer.length = 0 then .panicIndexOutOfRange
  else
    let r := p.setVerdict o NF_ACCEPT buffer.length (some buffer)
    .result r.1 r.2

/-- Modelled from the spec: the `Registry` component (`queueRegistry` with its
`Register` and `Lookup` operations) is referenced by `NewQueue` (line 174) but
its definition is not among the provided source files.  Per spec section 4.1 it
is a mapping from queue id to queue instance; it is modelled as an association
list whose most recent binding wins. -/
def Registry (H : Type) : Type := List (Nat × Queue H)

/-- Modelled from the spec: `Register(id, queue)` unconditionally overwrites
any existing entry for `id`, signalling no error (spec section 4.1). -/
def Registry.Register (r : Registry H) (id : Nat) (q : Queue H) : Registry H :=
  (id, q) :: r

/-- Modelled from the spec: `Lookup(id)` returns the queue registered under
`id`, or "not found" (spec section 4.1). -/
def Registry.Lookup (r : Registry H) (id : Nat) : Option (Queue H) :=
  (List.find? (fun e => e.1 == id) r).map (fun e => e.2)

/-- `NewQueue` (lines 165-176): substitute `QueueConfig{}` for a nil config,
build the queue and register it under its id.  The registry is threaded
explicitly (in Go it is the package-level `queueRegistry`). -/
def NewQueue (queueID : Nat) (handler : H) (cfg : Option QueueConfig)
    (reg : Registry H) : Queue H × Registry H :=
  let cfg := match cfg with
    | none => QueueConfig.zero
    | some c => c
  let q : Queue H := { ID := queueID, handler := handler, cfg := cfg }
  (q, reg.Register queueID q)

/-! Concrete fixtures used to evaluate the model. -/

/-- Oracle in which every native call succeeds. -/
def NativeOracle.allOk : NativeOracle :=
  ⟨true, true, true, true, true, true, true, true, true, true, true⟩

/-- Oracle in which only `close(fd)` fails. -/
def oStopCloseFail : NativeOracle :=
  { NativeOracle.allOk with closeOk := false }

/-- A queue with the zero configuration (handler abstracted to `Unit`). -/
def q0 : Queue Unit :=
  { ID := 1, handler := (), cfg := QueueConfig.zero }

/-- A queue requesting the flags `{Conntrack, UIDGid}`. -/
def qFlags : Queue Unit :=
  { ID := 1, handler := (),
    cfg := { MaxPackets := 0,
             QueueFlags := [QueueFlag.Conntrack, QueueFlag.UIDGid],
             BufferSize := 0 } }

/-- Metadata fixture with the spec's example hardware address. -/
def meta0 : PacketMeta :=
  { HasUID := false, HasGID := false, UID := 0, GID := 0, InDev := 0, OutDev := 0,
    PhysInDev := 0, PhysOutDev := 0, NFMark := 0,
    HWAddr := [0xAA, 0xBB, 0xCC, 0xDD, 0xEE, 0xFF] }

/-- Packet fixture with kernel id 7. -/
def pkt0 : Packet Unit :=
  { Buffer := [], Meta := meta0, id := 7, q := q0 }

/-! Helper lemmas about step sequencing. -/

theorem seqStep_some {ε : Type} (cs : List NativeCall) (e : ε)
    (k : List NativeCall × Option ε) : seqStep (cs, some e) k = (cs, some e) := rfl

theorem seqStep_none {ε : Type} (cs : List NativeCall)
    (k : List NativeCall × Option ε) : seqStep (cs, none) k = (cs ++ k.1, k.2) := rfl

theorem mem_seqStep {ε : Type} (a k : List NativeCall × Option ε) (c : NativeCall)
    (h : c ∈ (seqStep a k).1) : c ∈ a.1 ∨ c ∈ k.1 := by
  unfold seqStep at h
  cases ha : a.2 with
  | none => rw [ha] at h; exact List.mem_append.mp h
  | some e => rw [ha] at h; exact Or.inl h

/-- C1: In `Start`, when the configuration requests one or more queue flags, the
spec says the applied bitmask is the bitwise OR of all requested flag bits and
that `{Conntrack, UIDGid}` yields a nonzero mask with both bits set.  The code
(line 210) folds with `&=` over a zero-initialized accumulator, so the applied
mask is 0: composing `{Conntrack, UIDGid}` yields 0 and `Start` issues
`nfq_set_queue_flags` with mask 0, not `Conntrack ||| UIDGid = 10`. -/
theorem composeFlags_and_folds_to_zero :
    composeFlags [QueueFlag.Conntrack, QueueFlag.UIDGid] = 0 ∧
    QueueFlag.Conntrack.toMask ||| QueueFlag.UIDGid.toMask = 10 ∧
    composeFlags [QueueFlag.Conntrack, QueueFlag.UIDGid] ≠
      QueueFlag.Conntrack.toMask ||| QueueFlag.UIDGid.toMask ∧
    NativeCall.setQueueFlags 0 ∈ (Queue.Start qFlags NativeOracle.allOk).1 := by
  decide

/-- C2 counterexample: calling `Modify` with an empty buffer does not fail with
a validation error: evaluating the argument `&buffer[0]` hits the Go bounds
check and panics with an index-out-of-range error before any native call. -/
theorem modify_empty_buffer_panics :
    Packet.Modify pkt0 NativeOracle.allOk [] = ModifyResult.panicIndexOutOfRange := by
  decide

/-- C2 (amended): `Modify` with an empty buffer panics with an
index-out-of-range runtime error (it returns no validation error), and the
native verdict call with a replacement buffer is only reached when
`len(buffer) > 0`, in which case it is the single call
`nfq_set_verdict(NF_ACCEPT, len(buffer), buffer)` tagged with the packet id. -/
theorem modify_empty_panics_nonempty_verdicts (p : Packet H) (o : NativeOracle)
    (buffer : List Nat) :
    (buffer.length = 0 → p.Modify o buffer = ModifyResult.panicIndexOutOfRange) ∧
    (0 < buffer.length → p.Modify o buffer =
      ModifyResult.result [⟨NF_ACCEPT, p.id, buffer.length, some buffer⟩]
        (if o.verdictOk then none
         else some ("Error setting verdict " ++ toString NF_ACCEPT ++
           " for packet " ++ toString p.id))) := by
  constructor
  · intro h
    simp [Packet.Modify, h]
  · intro h
    rw [Packet.Modify, if_neg (by omega)]
    rfl

/-- C2 witness: a one-byte buffer reaches the native verdict call. -/
theorem modify_nonempty_witness :
    0 < ([5] : List Nat).length ∧
    Packet.Modify pkt0 NativeOracle.allOk [5] =
      ModifyResult.result [⟨NF_ACCEPT, 7, 1, some [5]⟩] none := by
  refine ⟨by decide, ?_⟩
  have h := (modify_empty_panics_nonempty_verdicts pkt0 NativeOracle.allOk [5]).2 (by decide)
  rw [h]
  rfl

/-- C3 counterexample: when closing the descriptor fails, `Stop` returns at
once with the close-descriptor error; the destroy-binding and close-context
steps are not executed, contradicting the claim that cleanup continues through
the remaining steps after an earlier failure. -/
theorem stop_aborts_on_close_failure :
    (Queue.Stop q0 oStopCloseFail).2 = some StopError.closeDescriptorError ∧
    NativeCall.destroyQueue ∉ (Queue.Stop q0 oStopCloseFail).1 ∧
    NativeCall.nfqClose ∉ (Queue.Stop q0 oStopCloseFail).1 := by
  decide

/-- C3 (amended): `Stop` releases resources in the order close descriptor,
destroy binding, close context, each failing step reported as its own distinct
error kind, but it returns at the first failing step: later cleanup steps are
not executed. -/
theorem stop_order_and_first_failure (q : Queue H) (o : NativeOracle) :
    (o.closeOk = false →
      q.Stop o = ([NativeCall.closeFd], some StopError.closeDescriptorError)) ∧
    (o.closeOk = true → o.destroyOk = false →
      q.Stop o = ([NativeCall.closeFd, NativeCall.destroyQueue],
        some StopError.destroyBindingError)) ∧
    (o.closeOk = true → o.destroyOk = true → o.ncloseOk = false →
      q.Stop o = ([NativeCall.closeFd, NativeCall.destroyQueue, NativeCall.nfqClose],
        some StopError.closeContextError)) ∧
    (o.closeOk = true → o.destroyOk = true → o.ncloseOk = true →
      q.Stop o = ([NativeCall.closeFd, NativeCall.destroyQueue, NativeCall.nfqClose],
        none)) := by
  refine ⟨?_, ?_, ?_, ?_⟩ <;> intros <;> simp_all [Queue.Stop, seqStep]

/-- C3 witness: with only the descriptor close failing, `Stop` stops there. -/
theorem stop_first_failure_witness :
    oStopCloseFail.closeOk = false ∧
    Queue.Stop q0 oStopCloseFail =
      ([NativeCall.closeFd], some StopError.closeDescriptorError) :=
  ⟨by decide, (stop_order_and_first_failure q0 oStopCloseFail).1 (by decide)⟩

/-- C6: `NewQueue` registers the constructed queue in the registry under its
id, so a subsequent `Lookup` of the same id returns that queue; and `Register`
unconditionally overwrites any existing entry for the id (its type signals no
error). -/
theorem newQueue_lookup_same (id : Nat) (hdl : H) (cfg : Option QueueConfig)
    (reg : Registry H) (q' : Queue H) :
    Registry.Lookup (NewQueue id hdl cfg reg).2 id = some (NewQueue id hdl cfg reg).1 ∧
    Registry.Lookup (Registry.Register reg id q') id = some q' := by
  constructor <;> simp [NewQueue, Registry.Lookup, Registry.Register]

/-- C10: `NewQueue` with a nil configuration substitutes the zero-valued
`QueueConfig{}`: the result (queue and registry alike) is identical to the one
built from an explicit configuration with `MaxPackets = 0`, no queue flags and
`BufferSize = 0`. -/
theorem newQueue_nil_cfg (id : Nat) (hdl : H) (reg : Registry H) :
    NewQueue id hdl none reg = NewQueue id hdl (some QueueConfig.zero) reg ∧
    (NewQueue id hdl none reg).1.cfg =
      { MaxPackets := 0, QueueFlags := [], BufferSize := 0 } :=
  ⟨rfl, rfl⟩

/-- Oracle in which only `nfq_open` fails. -/
def oOpenFail : NativeOracle :=
  { NativeOracle.allOk with openOk := false }

/-- Oracle in which only `nfq_set_verdict` fails. -/
def oVerdictFail : NativeOracle :=
  { NativeOracle.allOk with verdictOk := false }

theorem mem_seqStep_left {ε : Type} (a k : List NativeCall × Option ε) (c : NativeCall)
    (h : c ∈ a.1) : c ∈ (seqStep a k).1 := by
  unfold seqStep
  cases ha : a.2 <;> simp [h]

theorem mem_seqStep_right {ε : Type} (a k : List NativeCall × Option ε) (c : NativeCall)
    (ha : a.2 = none) (h : c ∈ k.1) : c ∈ (seqStep a k).1 := by
  unfold seqStep
  rw [ha]
  simp [h]

/-- Every native call issued by `Start` is one of the eight configuration
steps, the conditional ones only under their configuration guard. -/
theorem start_calls_mem (q : Queue H) (o : NativeOracle) :
    ∀ c ∈ (q.Start o).1,
      c = NativeCall.nfqOpen ∨ c = NativeCall.createQueue q.ID ∨ c = NativeCall.setMode ∨
      (0 < q.cfg.MaxPackets ∧ c = NativeCall.setQueueMaxlen q.cfg.MaxPackets) ∨
      (0 < q.cfg.QueueFlags.length ∧
        c = NativeCall.setQueueFlags (composeFlags q.cfg.QueueFlags)) ∨
      c = NativeCall.nfqFd ∨
      (0 < q.cfg.BufferSize ∧ c = NativeCall.rcvbufsiz q.cfg.BufferSize) ∨
      c = NativeCall.nfqueueLoop := by
  intro c hc
  unfold Queue.Start at hc
  rcases mem_seqStep _ _ _ hc with h | hc
  · simp at h; tauto
  rcases mem_seqStep _ _ _ hc with h | hc
  · simp at h; tauto
  rcases mem_seqStep _ _ _ hc with h | hc
  · simp at h; tauto
  rcases mem_seqStep _ _ _ hc with h | hc
  · by_cases hM : 0 < q.cfg.MaxPackets
    · rw [if_pos hM] at h; simp at h; tauto
    · rw [if_neg hM] at h; simp at h
  rcases mem_seqStep _ _ _ hc with h | hc
  · by_cases hF : 0 < q.cfg.QueueFlags.length
    · rw [if_pos hF] at h; simp at h; tauto
    · rw [if_neg hF] at h; simp at h
  rcases mem_seqStep _ _ _ hc with h | hc
  · simp at h; tauto
  rcases mem_seqStep _ _ _ hc with h | hc
  · by_cases hB : 0 < q.cfg.BufferSize
    · rw [if_pos hB] at h; simp at h; tauto
    · rw [if_neg hB] at h; simp at h
  · simp at hc; tauto

/-- C4: `Start` performs its native steps in the fixed order open, bind, set
mode, set queue depth (if configured), set flags (if configured), get
descriptor, set buffer size (if configured), run loop; on the first failing
step it returns that step's distinct error without executing later steps, and
no release call (close descriptor / destroy binding / close context) ever
appears in its trace. -/
theorem start_order_and_abort (q : Queue H) (o : NativeOracle) :
    (o.openOk = false →
      q.Start o = ([NativeCall.nfqOpen], some StartError.openError)) ∧
    (o.openOk = true → o.createOk = false →
      q.Start o = ([NativeCall.nfqOpen, NativeCall.createQueue q.ID],
        some StartError.bindError)) ∧
    (o.openOk = true → o.createOk = true → o.modeOk = false →
      q.Start o = ([NativeCall.nfqOpen, NativeCall.createQueue q.ID, NativeCall.setMode],
        some StartError.modeError)) ∧
    (o.openOk = true → o.createOk = true → o.modeOk = true →
      0 < q.cfg.MaxPackets → o.maxlenOk = false →
      q.Start o = ([NativeCall.nfqOpen, NativeCall.createQueue q.ID, NativeCall.setMode,
        NativeCall.setQueueMaxlen q.cfg.MaxPackets], some StartError.queueLengthError)) ∧
    (o.openOk = true → o.createOk = true → o.modeOk = true →
      (0 < q.cfg.MaxPackets → o.maxlenOk = true) →
      0 < q.cfg.QueueFlags.length → o.flagsOk = false →
      q.Start o = ([NativeCall.nfqOpen, NativeCall.createQueue q.ID, NativeCall.setMode] ++
        (if 0 < q.cfg.MaxPackets then [NativeCall.setQueueMaxlen q.cfg.MaxPackets] else []) ++
        [NativeCall.setQueueFlags (composeFlags q.cfg.QueueFlags)],
        some StartError.flagError)) ∧
    (o.openOk = true → o.createOk = true → o.modeOk = true →
      (0 < q.cfg.MaxPackets → o.maxlenOk = true) →
      (0 < q.cfg.QueueFlags.length → o.flagsOk = true) →
      o.fdOk = false →
      q.Start o = ([NativeCall.nfqOpen, NativeCall.createQueue q.ID, NativeCall.setMode] ++
        (if 0 < q.cfg.MaxPackets then [NativeCall.setQueueMaxlen q.cfg.MaxPackets] else []) ++
        (if 0 < q.cfg.QueueFlags.length then
          [NativeCall.setQueueFlags (composeFlags q.cfg.QueueFlags)] else []) ++
        [NativeCall.nfqFd], some StartError.descriptorError)) ∧
    (o.openOk = true → o.createOk = true → o.modeOk = true →
      (0 < q.cfg.MaxPackets → o.maxlenOk = true) →
      (0 < q.cfg.QueueFlags.length → o.flagsOk = true) →
      o.fdOk = true → o.loopOk = false →
      q.Start o = ([NativeCall.nfqOpen, NativeCall.createQueue q.ID, NativeCall.setMode] ++
        (if 0 < q.cfg.MaxPackets then [NativeCall.setQueueMaxlen q.cfg.MaxPackets] else []) ++
        (if 0 < q.cfg.QueueFlags.length then
          [NativeCall.setQueueFlags (composeFlags q.cfg.QueueFlags)] else []) ++
        [NativeCall.nfqFd] ++
        (if 0 < q.cfg.BufferSize then [NativeCall.rcvbufsiz q.cfg.BufferSize] else []) ++
        [NativeCall.nfqueueLoop], some StartError.runLoopError)) ∧
    (∀ c ∈ (q.Start o).1, c ≠ NativeCall.closeFd ∧ c ≠ NativeCall.destroyQueue ∧
      c ≠ NativeCall.nfqClose) := by
  refine ⟨?_, ?_, ?_, ?_, ?_, ?_, ?_, ?_⟩
  · intro h1
    simp [Queue.Start, seqStep, h1]
  · intro h1 h2
    simp [Queue.Start, seqStep, h1, h2]
  · intro h1 h2 h3
    simp [Queue.Start, seqStep, h1, h2, h3]
  · intro h1 h2 h3 hM h4
    simp [Queue.Start, seqStep, h1, h2, h3, hM, h4]
  · intro h1 h2 h3 hMax hF h5
    by_cases hM : 0 < q.cfg.MaxPackets <;>
      simp [Queue.Start, seqStep, h1, h2, h3, hM, hMax, hF, h5]
  · intro h1 h2 h3 hMax hFl h6
    by_cases hM : 0 < q.cfg.MaxPackets <;>
      by_cases hF : 0 < q.cfg.QueueFlags.length <;>
      simp [Queue.Start, seqStep, h1, h2, h3, hM, hF, hMax, hFl, h6]
  · intro h1 h2 h3 hMax hFl h7 h8
    by_cases hM : 0 < q.cfg.MaxPackets <;>
      by_cases hF : 0 < q.cfg.QueueFlags.length <;>
      by_cases hB : 0 < q.cfg.BufferSize <;>
      simp [Queue.Start, seqStep, h1, h2, h3, hM, hF, hB, hMax, hFl, h7, h8]
  · intro c hc
    rcases start_calls_mem q o c hc with
      rfl | rfl | rfl | ⟨_, rfl⟩ | ⟨_, rfl⟩ | rfl | ⟨_, rfl⟩ | rfl <;> simp

/-- C4 witness: with `nfq_open` failing, `Start` issues only the open call and
returns the open error. -/
theorem start_abort_witness :
    oOpenFail.openOk = false ∧
    Queue.Start q0 oOpenFail = ([NativeCall.nfqOpen], some StartError.openError) :=
  ⟨by decide, (start_order_and_abort q0 oOpenFail).1 (by decide)⟩

/-- C9: `Start` issues the queue-depth call only when `MaxPackets > 0` and the
receive-buffer call only when `BufferSize > 0` (when the field is zero the call
is skipped entirely); and once the descriptor step has succeeded the outcome of
`Start` depends only on the run loop — the buffer-size step has no error path
distinct from success. -/
theorem start_conditional_config (q : Queue H) (o : NativeOracle) :
    (q.cfg.MaxPackets = 0 → ∀ n, NativeCall.setQueueMaxlen n ∉ (q.Start o).1) ∧
    (q.cfg.BufferSize = 0 → ∀ n, NativeCall.rcvbufsiz n ∉ (q.Start o).1) ∧
    (0 < q.cfg.MaxPackets → o.openOk = true → o.createOk = true → o.modeOk = true →
      NativeCall.setQueueMaxlen q.cfg.MaxPackets ∈ (q.Start o).1) ∧
    (0 < q.cfg.BufferSize → o.openOk = true → o.createOk = true → o.modeOk = true →
      (0 < q.cfg.MaxPackets → o.maxlenOk = true) →
      (0 < q.cfg.QueueFlags.length → o.flagsOk = true) → o.fdOk = true →
      NativeCall.rcvbufsiz q.cfg.BufferSize ∈ (q.Start o).1) ∧
    (o.openOk = true → o.createOk = true → o.modeOk = true →
      (0 < q.cfg.MaxPackets → o.maxlenOk = true) →
      (0 < q.cfg.QueueFlags.length → o.flagsOk = true) → o.fdOk = true →
      (q.Start o).2 = if o.loopOk then none else some StartError.runLoopError) := by
  refine ⟨?_, ?_, ?_, ?_, ?_⟩
  · intro h0 n hmem
    rcases start_calls_mem q o _ hmem with
      h | h | h | ⟨hM, h⟩ | ⟨_, h⟩ | h | ⟨_, h⟩ | h <;> simp_all
  · intro h0 n hmem
    rcases start_calls_mem q o _ hmem with
      h | h | h | ⟨_, h⟩ | ⟨_, h⟩ | h | ⟨hB, h⟩ | h <;> simp_all
  · intro hM h1 h2 h3
    unfold Queue.Start
    refine mem_seqStep_right _ _ _ (by simp [h1]) ?_
    refine mem_seqStep_right _ _ _ (by simp [h2]) ?_
    refine mem_seqStep_right _ _ _ (by simp [h3]) ?_
    refine mem_seqStep_left _ _ _ ?_
    rw [if_pos hM]
    simp
  · intro hB h1 h2 h3 hMax hFl h4
    unfold Queue.Start
    refine mem_seqStep_right _ _ _ (by simp [h1]) ?_
    refine mem_seqStep_right _ _ _ (by simp [h2]) ?_
    refine mem_seqStep_right _ _ _ (by simp [h3]) ?_
    refine mem_seqStep_right _ _ _ ?_ ?_
    · by_cases hM : 0 < q.cfg.MaxPackets <;> simp [hM, hMax]
    refine mem_seqStep_right _ _ _ ?_ ?_
    · by_cases hF : 0 < q.cfg.QueueFlags.length <;> simp [hF, hFl]
    refine mem_seqStep_right _ _ _ (by simp [h4]) ?_
    refine mem_seqStep_left _ _ _ ?_
    rw [if_pos hB]
    simp
  · intro h1 h2 h3 hMax hFl h4
    by_cases hM : 0 < q.cfg.MaxPackets <;>
      by_cases hF : 0 < q.cfg.QueueFlags.length <;>
      by_cases hB : 0 < q.cfg.BufferSize <;>
      simp [Queue.Start, seqStep, h1, h2, h3, h4, hM, hF, hB, hMax, hFl]

/-- C9 witness: with the zero configuration, neither the queue-depth call nor
the receive-buffer call is issued. -/
theorem start_conditional_witness :
    q0.cfg.MaxPackets = 0 ∧ q0.cfg.BufferSize = 0 ∧
    NativeCall.setQueueMaxlen 5 ∉ (Queue.Start q0 NativeOracle.allOk).1 ∧
    NativeCall.rcvbufsiz 5 ∉ (Queue.Start q0 NativeOracle.allOk).1 :=
  ⟨by decide, by decide,
    (start_conditional_config q0 NativeOracle.allOk).1 (by decide) 5,
    (start_conditional_config q0 NativeOracle.allOk).2.1 (by decide) 5⟩

/-- C5: `Accept` issues exactly one native verdict call with value `NF_ACCEPT`
and no replacement buffer, `Drop` exactly one with `NF_DROP`, and `Modify`
(with its required non-empty buffer) exactly one with `NF_ACCEPT` and the
replacement buffer; each call carries the packet's kernel-issued id, and a
native failure returns the error string naming the verdict value and the
packet id, with no further call. -/
theorem verdict_protocol (p : Packet H) (o : NativeOracle) (buffer : List Nat)
    (hb : buffer ≠ []) :
    p.Accept o = ([⟨NF_ACCEPT, p.id, 0, none⟩],
      if o.verdictOk then none
      else some ("Error setting verdict " ++ toString NF_ACCEPT ++ " for packet " ++
        toString p.id)) ∧
    p.Drop o = ([⟨NF_DROP, p.id, 0, none⟩],
      if o.verdictOk then none
      else some ("Error setting verdict " ++ toString NF_DROP ++ " for packet " ++
        toString p.id)) ∧
    p.Modify o buffer =
      ModifyResult.result [⟨NF_ACCEPT, p.id, buffer.length, some buffer⟩]
        (if o.verdictOk then none
         else some ("Error setting verdict " ++ toString NF_ACCEPT ++ " for packet " ++
           toString p.id)) := by
  refine ⟨rfl, rfl, ?_⟩
  rw [Packet.Modify, if_neg (fun h => hb (List.length_eq_zero.mp h))]
  rfl

/-- C5 witness: for packet id 7 and a failing native layer, the returned errors
name the verdict value and the packet id. -/
theorem verdict_protocol_witness :
    ([5] : List Nat) ≠ [] ∧
    Packet.Accept pkt0 oVerdictFail =
      ([⟨1, 7, 0, none⟩], some "Error setting verdict 1 for packet 7") ∧
    Packet.Drop pkt0 oVerdictFail =
      ([⟨0, 7, 0, none⟩], some "Error setting verdict 0 for packet 7") := by
  refine ⟨by decide, ?_, ?_⟩
  · have h := (verdict_protocol pkt0 oVerdictFail [5] (by decide)).1
    rw [h]; rfl
  · have h := (verdict_protocol pkt0 oVerdictFail [5] (by decide)).2.1
    rw [h]; rfl

theorem exists_six_bytes (l : List Nat) (h : 6 ≤ l.length) :
    ∃ a b c d e f t, l = a :: b :: c :: d :: e :: f :: t := by
  rcases l with _ | ⟨a, _ | ⟨b, _ | ⟨c, _ | ⟨d, _ | ⟨e, _ | ⟨f, t⟩⟩⟩⟩⟩⟩ <;>
    simp only [List.length] at h
  all_goals first
    | omega
    | exact ⟨a, b, c, d, e, f, t, rfl⟩

/-- C7: `MACAddr` renders exactly the first six hardware-address bytes as
colon-separated two-digit uppercase hex pairs (fewer than six bytes is a
precondition violation, assumed as hypothesis). -/
theorem macaddr_renders_first_six (m : PacketMeta) (h : 6 ≤ m.HWAddr.length) :
    m.MACAddr = MACResult.ok (String.intercalate ":" ((m.HWAddr.take 6).map hexPair)) := by
  obtain ⟨a, b, c, d, e, f, t, hl⟩ := exists_six_bytes m.HWAddr h
  unfold PacketMeta.MACAddr
  rw [hl]
  rfl

/-- C7 witness: the bytes `{0xAA,0xBB,0xCC,0xDD,0xEE,0xFF}` render as
`"AA:BB:CC:DD:EE:FF"`. -/
theorem macaddr_witness :
    6 ≤ meta0.HWAddr.length ∧ meta0.MACAddr = MACResult.ok "AA:BB:CC:DD:EE:FF" := by
  refine ⟨by decide, ?_⟩
  rw [macaddr_renders_first_six meta0 (by decide)]
  rfl

/-- C8: each of the four interface-name accessors returns the resolved
interface name on a successful index lookup and the empty string when the
lookup fails; their `String` return type propagates no error. -/
theorem devnames_best_effort (m : PacketMeta) (lookup : IfaceLookup) :
    (lookup m.InDev = none → m.InDevName lookup = "") ∧
    (∀ i, lookup m.InDev = some i → m.InDevName lookup = i.Name) ∧
    (lookup m.OutDev = none → m.OutDevName lookup = "") ∧
    (∀ i, lookup m.OutDev = some i → m.OutDevName lookup = i.Name) ∧
    (lookup m.PhysInDev = none → m.PhysInDevName lookup = "") ∧
    (∀ i, lookup m.PhysInDev = some i → m.PhysInDevName lookup = i.Name) ∧
    (lookup m.PhysOutDev = none → m.PhysOutDevName lookup = "") ∧
    (∀ i, lookup m.PhysOutDev = some i → m.PhysOutDevName lookup = i.Name) := by
  refine ⟨?_, ?_, ?_, ?_, ?_, ?_, ?_, ?_⟩ <;> intros <;>
    simp_all [PacketMeta.InDevName, PacketMeta.OutDevName, PacketMeta.PhysInDevName,
      PacketMeta.PhysOutDevName]

/-- C8 witness: under a lookup that resolves no index (every index
nonexistent), all four accessors return the empty string. -/
theorem devnames_witness :
    (fun _ => (none : Option Iface)) meta0.InDev = none ∧
    meta0.InDevName (fun _ => none) = "" ∧
    meta0.OutDevName (fun _ => none) = "" ∧
    meta0.PhysInDevName (fun _ => none) = "" ∧
    meta0.PhysOutDevName (fun _ => none) = "" := by
  have h := devnames_best_effort meta0 (fun _ => none)
  exact ⟨rfl, h.1 rfl, h.2.2.1 rfl, h.2.2.2.2.1 rfl, h.2.2.2.2.2.2.1 rfl⟩

end nfqueue
